import Mathlib

/-!
Shallow embedding of the core data-processing pipeline of the
Multi-Agent-Systems-GraphDB repository: the data-structuring agent
(column profiling and relationship detection), the graph-modeling agent
(graph model compilation and demo-mode loading), and the agent
orchestrator (job pipeline and batch processing).

JavaScript values are modelled by `JSVal`: a cell of a record is either
`undef` (a missing object key), `null`, or an actual scalar `val v`.
A record (JS object) is an association list from column names to cells;
`rowGet` is property access, returning `undef` for a missing key, as in JS.
Rational numbers stand in for JS numbers; where the original code calls
platform primitives (Number parsing, moment date parsing, URL parsing,
regex matching, Math.sqrt, Math.random) the embedding is parameterized
by those primitives, since their semantics live in the JS runtime, not
in this repository.
-/

/-- Cell of a JS record: a missing key, the JS `null`, or a scalar value. -/
inductive JSVal (V : Type) where
  | undef : JSVal V
  | null : JSVal V
  | val : V → JSVal V
deriving DecidableEq, Repr

/-- JS object modelled as an association list from keys to cells. -/
def Row (V : Type) : Type := List (String × JSVal V)

instance {V : Type} [DecidableEq V] : DecidableEq (Row V) := by
  unfold Row; infer_instance

/-- Property access `row[col]`: the first binding for the key, `undefined`
when the key is absent. -/
def rowGet {V : Type} (r : Row V) (c : String) : JSVal V :=
  match r.find? (fun p => p.1 == c) with
  | some p => p.2
  | none => JSVal.undef

/-- Relationship categories appearing in the source
(`foreign_key`, `hierarchical`, `temporal`, `semantic`). -/
inductive RelKind where
  | foreign_key : RelKind
  | hierarchical : RelKind
  | temporal : RelKind
  | semantic : RelKind
deriving DecidableEq, Repr

/-- RelationshipCandidate as returned by
`DataStructuringAgent.analyzeColumnRelationship`. -/
structure RelationshipCandidate where
  type : RelKind
  source : String
  target : String
  confidence : ℚ
  description : String
deriving DecidableEq, Repr

section Detector

variable {V : Type} [DecidableEq V]

/-- Embeds `data.map(row => row[col]).filter(v => v !== null)` from
`analyzeColumnRelationship`: note that only `null` is filtered out, so a
missing key contributes `undef` to the list. -/
def columnValues (data : List (Row V)) (c : String) : List (JSVal V) :=
  (data.map (fun r => rowGet r c)).filter (fun v => decide (v ≠ JSVal.null))

/-- The JS `new Set(values)` on a column's value list. -/
def valueSet (data : List (Row V)) (c : String) : Finset (JSVal V) :=
  (columnValues data c).toFinset

/-- Cardinality of the intersection of the two columns' value sets. -/
def interCard (data : List (Row V)) (c1 c2 : String) : ℕ :=
  ((valueSet data c1) ∩ (valueSet data c2)).card

/-- The `Math.min(set1.size, set2.size)` denominator. -/
def minCard (data : List (Row V)) (c1 c2 : String) : ℕ :=
  min (valueSet data c1).card (valueSet data c2).card

/-- The overlap quotient `intersection.size / Math.min(set1.size, set2.size)`. -/
def overlapOf (data : List (Row V)) (c1 c2 : String) : ℚ :=
  (interCard data c1 c2 : ℚ) / (minCard data c1 c2 : ℚ)

/-- Embeds `DataStructuringAgent.analyzeColumnRelationship`. -/
def analyzeColumnRelationship (data : List (Row V)) (c1 c2 : String) :
    Option RelationshipCandidate :=
  if 0 < interCard data c1 c2 then
    let overlap : ℚ := overlapOf data c1 c2
    if 1/2 < overlap then
      some { type := RelKind.foreign_key, source := c1, target := c2,
             confidence := overlap,
             description := "Potential foreign key relationship between "
               ++ c1 ++ " and " ++ c2 }
    else none
  else none

/-- The double loop `for i < j over columns` of
`DataStructuringAgent.detectRelationships`, as the list of visited pairs. -/
def columnPairs : List String → List (String × String)
  | [] => []
  | c :: rest => rest.map (fun c2 => (c, c2)) ++ columnPairs rest

/-- Embeds `DataStructuringAgent.detectRelationships`. -/
def detectRelationships (data : List (Row V)) (columns : List String) :
    List RelationshipCandidate :=
  (columnPairs columns).filterMap
    (fun p => analyzeColumnRelationship data p.1 p.2)

end Detector

/-- Does a candidate connect the unordered column pair `{c1, c2}`? -/
def candMatch (c1 c2 : String) (r : RelationshipCandidate) : Bool :=
  (r.source == c1 && r.target == c2) || (r.source == c2 && r.target == c1)

/-- The claim-side value set of a column: per the spec's data model a
missing key is treated as null, so only actual scalars count as
non-null values. Written from the spec's words for comparison with the
source-derived `valueSet`. -/
def specValueSet {V : Type} [DecidableEq V] (data : List (Row V)) (c : String) :
    Finset V :=
  ((data.map (fun r => rowGet r c)).filterMap
    (fun v => match v with | JSVal.val x => some x | _ => none)).toFinset

/-- The candidate record literal returned by `analyzeColumnRelationship`
when the overlap threshold is passed. -/
def mkFKCand {V : Type} [DecidableEq V] (data : List (Row V)) (c1 c2 : String) :
    RelationshipCandidate :=
  { type := RelKind.foreign_key, source := c1, target := c2,
    confidence := overlapOf data c1 c2,
    description := "Potential foreign key relationship between "
      ++ c1 ++ " and " ++ c2 }

/-- Does a visited index pair hit the unordered column pair `{c1, c2}`? -/
def pairMatch (c1 c2 : String) (p : String × String) : Bool :=
  (p.1 == c1 && p.2 == c2) || (p.1 == c2 && p.2 == c1)

section DetectorLemmas

variable {V : Type} [DecidableEq V]

lemma interCard_le_minCard (data : List (Row V)) (c1 c2 : String) :
    interCard data c1 c2 ≤ minCard data c1 c2 :=
  le_min (Finset.card_le_card Finset.inter_subset_left)
    (Finset.card_le_card Finset.inter_subset_right)

lemma interCard_comm (data : List (Row V)) (c1 c2 : String) :
    interCard data c1 c2 = interCard data c2 c1 := by
  unfold interCard; rw [Finset.inter_comm]

lemma minCard_comm (data : List (Row V)) (c1 c2 : String) :
    minCard data c1 c2 = minCard data c2 c1 := by
  unfold minCard; rw [min_comm]

lemma overlapOf_comm (data : List (Row V)) (c1 c2 : String) :
    overlapOf data c1 c2 = overlapOf data c2 c1 := by
  unfold overlapOf; rw [interCard_comm, minCard_comm]

/-- The source's two guards (`intersection.size > 0` and `overlap > 0.5`)
are together equivalent to the integer condition `min < 2·|∩|`. -/
lemma overlap_cond_iff (data : List (Row V)) (c1 c2 : String) :
    (0 < interCard data c1 c2 ∧ 1/2 < overlapOf data c1 c2) ↔
      minCard data c1 c2 < 2 * interCard data c1 c2 := by
  have hle := interCard_le_minCard data c1 c2
  unfold overlapOf
  constructor
  · rintro ⟨ha, hov⟩
    have hm : 0 < minCard data c1 c2 := lt_of_lt_of_le ha hle
    have hmq : (0:ℚ) < (minCard data c1 c2 : ℚ) := by exact_mod_cast hm
    rw [div_lt_div_iff (by norm_num) hmq] at hov
    have : (minCard data c1 c2 : ℚ) < 2 * (interCard data c1 c2 : ℚ) := by
      linarith
    exact_mod_cast this
  · intro h
    have ha : 0 < interCard data c1 c2 := by omega
    have hm : 0 < minCard data c1 c2 := lt_of_lt_of_le ha hle
    have hmq : (0:ℚ) < (minCard data c1 c2 : ℚ) := by exact_mod_cast hm
    refine ⟨ha, ?_⟩
    rw [div_lt_div_iff (by norm_num) hmq]
    have : (minCard data c1 c2 : ℚ) < 2 * (interCard data c1 c2 : ℚ) := by
      exact_mod_cast h
    linarith

/-- Evaluation form of `analyzeColumnRelationship` over the integer
threshold condition. -/
lemma analyze_eval (data : List (Row V)) (c1 c2 : String) :
    analyzeColumnRelationship data c1 c2 =
      if minCard data c1 c2 < 2 * interCard data c1 c2 then
        some (mkFKCand data c1 c2)
      else none := by
  unfold analyzeColumnRelationship mkFKCand
  by_cases h : minCard data c1 c2 < 2 * interCard data c1 c2
  · obtain ⟨h0, hov⟩ := (overlap_cond_iff data c1 c2).mpr h
    rw [one_div] at hov
    simp [h, h0, hov]
  · simp only [if_neg h]
    by_cases h0 : 0 < interCard data c1 c2
    · have hov : ¬ (1/2 < overlapOf data c1 c2) := fun hov =>
        h ((overlap_cond_iff data c1 c2).mp ⟨h0, hov⟩)
      rw [one_div] at hov
      simp [h0, hov]
    · simp [h0]

lemma analyze_fields {data : List (Row V)} {c1 c2 : String}
    {r : RelationshipCandidate}
    (h : analyzeColumnRelationship data c1 c2 = some r) :
    r = mkFKCand data c1 c2 := by
  rw [analyze_eval] at h
  by_cases hc : minCard data c1 c2 < 2 * interCard data c1 c2
  · rw [if_pos hc] at h; exact (Option.some_inj.mp h).symm
  · rw [if_neg hc] at h; cases h

lemma mem_columnPairs {p : String × String} :
    ∀ {l : List String}, p ∈ columnPairs l → p.1 ∈ l ∧ p.2 ∈ l := by
  intro l
  induction l with
  | nil => intro h; cases h
  | cons c rest ih =>
    intro h
    rw [columnPairs, List.mem_append] at h
    rcases h with h | h
    · obtain ⟨x, hx, hpx⟩ := List.mem_map.mp h
      subst hpx
      exact ⟨List.mem_cons_self _ _, List.mem_cons_of_mem _ hx⟩
    · obtain ⟨h1, h2⟩ := ih h
      exact ⟨List.mem_cons_of_mem _ h1, List.mem_cons_of_mem _ h2⟩

lemma filter_beq_of_not_mem {l : List String} {a : String} (h : a ∉ l) :
    l.filter (fun x => x == a) = [] := by
  apply List.filter_eq_nil.mpr
  intro x hx
  simp only [beq_iff_eq]
  exact fun hxa => h (hxa ▸ hx)

lemma filter_beq_of_nodup {l : List String} {a : String}
    (hnd : l.Nodup) (ha : a ∈ l) : l.filter (fun x => x == a) = [a] := by
  induction l with
  | nil => cases ha
  | cons b rest ih =>
    rcases List.mem_cons.mp ha with hba | ha'
    · subst hba
      rw [List.filter_cons_of_pos (by simp)]
      rw [filter_beq_of_not_mem (List.nodup_cons.mp hnd).1]
    · have hb : b ≠ a := by
        rintro rfl; exact (List.nodup_cons.mp hnd).1 ha'
      rw [List.filter_cons_of_neg (by simp [hb])]
      exact ih (List.nodup_cons.mp hnd).2 ha'

/-- Among the pairs visited by the detector's double loop, exactly one
hits a given unordered pair of distinct present columns. -/
lemma columnPairs_filter_pair {cols : List String} {c1 c2 : String}
    (hnd : cols.Nodup) (h1 : c1 ∈ cols) (h2 : c2 ∈ cols) (hne : c1 ≠ c2) :
    (columnPairs cols).filter (pairMatch c1 c2) = [(c1, c2)] ∨
      (columnPairs cols).filter (pairMatch c1 c2) = [(c2, c1)] := by
  induction cols with
  | nil => cases h1
  | cons c rest ih =>
    obtain ⟨hcr, hndr⟩ := List.nodup_cons.mp hnd
    rw [columnPairs, List.filter_append, List.filter_map]
    by_cases hc1 : c = c1
    · subst hc1
      have h2r : c2 ∈ rest := by
        rcases List.mem_cons.mp h2 with h | h
        · exact absurd h.symm hne
        · exact h
      have hmapf : (pairMatch c c2 ∘ fun x => (c, x)) =
          fun x => x == c2 := by
        funext x
        simp [pairMatch, Function.comp, hne]
      rw [hmapf, filter_beq_of_nodup hndr h2r]
      have hrest : (columnPairs rest).filter (pairMatch c c2) = [] := by
        apply List.filter_eq_nil.mpr
        intro p hp
        obtain ⟨hp1, hp2⟩ := mem_columnPairs hp
        simp only [pairMatch, Bool.or_eq_true, Bool.and_eq_true, beq_iff_eq]
        rintro (⟨rfl, rfl⟩ | ⟨rfl, rfl⟩)
        · exact hcr hp1
        · exact hcr hp2
      rw [hrest]
      left; rfl
    · by_cases hc2 : c = c2
      · subst hc2
        have h1r : c1 ∈ rest := by
          rcases List.mem_cons.mp h1 with h | h
          · exact absurd h hne
          · exact h
        have hmapf : (pairMatch c1 c ∘ fun x => (c, x)) =
            fun x => x == c1 := by
          funext x
          simp [pairMatch, Function.comp, Ne.symm hne]
        rw [hmapf, filter_beq_of_nodup hndr h1r]
        have hrest : (columnPairs rest).filter (pairMatch c1 c) = [] := by
          apply List.filter_eq_nil.mpr
          intro p hp
          obtain ⟨hp1, hp2⟩ := mem_columnPairs hp
          simp only [pairMatch, Bool.or_eq_true, Bool.and_eq_true, beq_iff_eq]
          rintro (⟨rfl, rfl⟩ | ⟨rfl, rfl⟩)
          · exact hcr hp2
          · exact hcr hp1
        rw [hrest]
        right; rfl
      · have hmap : (rest.filter (pairMatch c1 c2 ∘ fun x => (c, x))) = [] := by
          apply List.filter_eq_nil.mpr
          intro x _
          simp only [pairMatch, Function.comp, Bool.or_eq_true,
            Bool.and_eq_true, beq_iff_eq]
          rintro (⟨rfl, rfl⟩ | ⟨rfl, rfl⟩)
          · exact hc1 rfl
          · exact hc2 rfl
        rw [hmap, List.map_nil, List.nil_append]
        have h1r : c1 ∈ rest := by
          rcases List.mem_cons.mp h1 with h | h
          · exact absurd h.symm hc1
          · exact h
        have h2r : c2 ∈ rest := by
          rcases List.mem_cons.mp h2 with h | h
          · exact absurd h.symm hc2
          · exact h
        exact ih hndr h1r h2r

/-- Filtering a filterMap by a predicate that agrees with a predicate on
the inputs. -/
lemma filter_filterMap_congr {α β : Type} (L : List α) (f : α → Option β)
    (q : β → Bool) (P : α → Bool)
    (h : ∀ a ∈ L, ∀ b, f a = some b → q b = P a) :
    (L.filterMap f).filter q = (L.filter P).filterMap f := by
  induction L with
  | nil => rfl
  | cons a rest ih =>
    have hrest := ih (fun a ha => h a (List.mem_cons_of_mem _ ha))
    cases hfa : f a with
    | none =>
      rw [List.filterMap_cons_none hfa]
      by_cases hPa : P a
      · rw [List.filter_cons_of_pos hPa, List.filterMap_cons_none hfa, hrest]
      · rw [List.filter_cons_of_neg hPa, hrest]
    | some b =>
      have hqb : q b = P a := h a (List.mem_cons_self _ _) b hfa
      rw [List.filterMap_cons_some hfa]
      by_cases hPa : P a
      · rw [List.filter_cons_of_pos (hqb ▸ hPa),
          List.filter_cons_of_pos hPa, List.filterMap_cons_some hfa, hrest]
      · rw [List.filter_cons_of_neg (fun hq => hPa (hqb ▸ hq)),
          List.filter_cons_of_neg hPa, hrest]

/-- The detector's candidates hitting an unordered pair of distinct
present columns, in closed form. -/
lemma detect_filter_eval (data : List (Row V)) {cols : List String}
    {c1 c2 : String}
    (hnd : cols.Nodup) (h1 : c1 ∈ cols) (h2 : c2 ∈ cols) (hne : c1 ≠ c2) :
    ((detectRelationships data cols).filter (candMatch c1 c2) =
       if minCard data c1 c2 < 2 * interCard data c1 c2 then
         [mkFKCand data c1 c2] else []) ∨
    ((detectRelationships data cols).filter (candMatch c1 c2) =
       if minCard data c1 c2 < 2 * interCard data c1 c2 then
         [mkFKCand data c2 c1] else []) := by
  have hcongr : ∀ p ∈ columnPairs cols, ∀ r,
      analyzeColumnRelationship data p.1 p.2 = some r →
      candMatch c1 c2 r = pairMatch c1 c2 p := by
    intro p _ r hr
    rw [analyze_fields hr]
    simp [candMatch, mkFKCand, pairMatch]
  unfold detectRelationships
  rw [filter_filterMap_congr _ _ _ _ hcongr]
  rcases columnPairs_filter_pair hnd h1 h2 hne with hp | hp
  · left
    rw [hp, List.filterMap_cons, List.filterMap_nil, analyze_eval]
    by_cases hc : minCard data c1 c2 < 2 * interCard data c1 c2
    · rw [if_pos hc, if_pos hc]
    · rw [if_neg hc, if_neg hc]
  · right
    rw [hp, List.filterMap_cons, List.filterMap_nil, analyze_eval]
    simp only [minCard_comm data c2 c1, interCard_comm data c2 c1]
    by_cases hc : minCard data c1 c2 < 2 * interCard data c1 c2
    · rw [if_pos hc, if_pos hc]
    · rw [if_neg hc, if_neg hc]

end DetectorLemmas

lemma overlap_le_half_iff {V : Type} [DecidableEq V]
    (data : List (Row V)) (c1 c2 : String) :
    overlapOf data c1 c2 ≤ 1/2 ↔
      2 * interCard data c1 c2 ≤ minCard data c1 c2 := by
  constructor
  · intro hle
    by_contra h
    obtain ⟨_, hov⟩ :=
      (overlap_cond_iff data c1 c2).mpr (lt_of_not_le h)
    exact absurd hle (not_le.mpr hov)
  · intro h2m
    by_contra hle
    have hov : 1/2 < overlapOf data c1 c2 := lt_of_not_le hle
    have h0 : 0 < interCard data c1 c2 := by
      by_contra h0
      have ha : interCard data c1 c2 = 0 := Nat.eq_zero_of_not_pos h0
      rw [overlapOf, ha] at hov
      norm_num at hov
    have := (overlap_cond_iff data c1 c2).mp ⟨h0, hov⟩
    omega

/-- C1 (amended): for an unordered pair of distinct columns of the
dataset, with S1 and S2 the column value sets as the code builds them
(only JS `null` is dropped, so a missing key contributes the `undefined`
value), the detector emits no foreign_key candidate for the pair when
|S1∩S2| / min(|S1|,|S2|) ≤ 1/2, and exactly one candidate — whose
confidence equals that quotient — when the quotient exceeds 1/2. -/
theorem detector_overlap_threshold {V : Type} [DecidableEq V]
    (data : List (Row V)) (cols : List String) (c1 c2 : String)
    (hnd : cols.Nodup) (h1 : c1 ∈ cols) (h2 : c2 ∈ cols) (hne : c1 ≠ c2) :
    (overlapOf data c1 c2 ≤ 1/2 →
      (detectRelationships data cols).filter (candMatch c1 c2) = []) ∧
    (1/2 < overlapOf data c1 c2 →
      ((detectRelationships data cols).filter (candMatch c1 c2) =
          [mkFKCand data c1 c2] ∨
        (detectRelationships data cols).filter (candMatch c1 c2) =
          [mkFKCand data c2 c1])) := by
  constructor
  · intro hle
    have hc : ¬ (minCard data c1 c2 < 2 * interCard data c1 c2) :=
      not_lt.mpr ((overlap_le_half_iff data c1 c2).mp hle)
    rcases detect_filter_eval data hnd h1 h2 hne with h | h
    · rw [h, if_neg hc]
    · rw [h, if_neg hc]
  · intro hgt
    have hc : minCard data c1 c2 < 2 * interCard data c1 c2 := by
      by_contra h
      exact absurd ((overlap_le_half_iff data c1 c2).mpr (not_lt.mp h))
        (not_le.mpr hgt)
    rcases detect_filter_eval data hnd h1 h2 hne with h | h
    · exact Or.inl (by rw [h, if_pos hc])
    · exact Or.inr (by rw [h, if_pos hc])

/-- The end-to-end example dataset `[{id:1,mgr:5},{id:2,mgr:1},{id:5,mgr:5}]`. -/
def egData : List (Row ℕ) :=
  [[("id", JSVal.val 1), ("mgr", JSVal.val 5)],
   [("id", JSVal.val 2), ("mgr", JSVal.val 1)],
   [("id", JSVal.val 5), ("mgr", JSVal.val 5)]]

/-- Witness for C1: on the example dataset the overlap quotient is
2/2 = 1 > 1/2 and the detector emits exactly one candidate for the pair. -/
theorem detector_overlap_threshold_witness :
    1/2 < overlapOf egData "id" "mgr" ∧
    ((detectRelationships egData ["id", "mgr"]).filter
        (candMatch "id" "mgr") = [mkFKCand egData "id" "mgr"] ∨
      (detectRelationships egData ["id", "mgr"]).filter
        (candMatch "id" "mgr") = [mkFKCand egData "mgr" "id"]) := by
  have hov : 1/2 < overlapOf egData "id" "mgr" := by
    have ha : interCard egData "id" "mgr" = 2 := by decide
    have hm : minCard egData "id" "mgr" = 2 := by decide
    rw [overlapOf, ha, hm]
    norm_num
  exact ⟨hov,
    (detector_overlap_threshold egData ["id", "mgr"] "id" "mgr"
      (by decide) (by decide) (by decide) (by decide)).2 hov⟩

/-- Dataset refuting C1 as stated: both columns have no non-null value
(per the spec's data model, which treats a missing key as null), yet the
detector emits a foreign_key candidate, because the code drops only JS
`null` and keeps `undefined` as an ordinary set element. -/
def cexData : List (Row ℕ) := [[("a", JSVal.null), ("b", JSVal.null)], []]

/-- Counterexample to C1 as stated: on `cexData` the spec-side value sets
of both columns are empty, so the claim requires that no foreign_key
candidate be emitted for the pair, but the detector emits one with
confidence 1. -/
theorem detector_overlap_claim_counterexample :
    specValueSet cexData "a" = ∅ ∧ specValueSet cexData "b" = ∅ ∧
    (detectRelationships cexData ["a", "b"]).filter (candMatch "a" "b") =
      [mkFKCand cexData "a" "b"] ∧
    (mkFKCand cexData "a" "b").confidence = 1 := by
  have hc : minCard cexData "a" "b" < 2 * interCard cexData "a" "b" := by
    decide
  have hsome : analyzeColumnRelationship cexData "a" "b" =
      some (mkFKCand cexData "a" "b") := by
    rw [analyze_eval, if_pos hc]
  refine ⟨by decide, by decide, ?_, ?_⟩
  · have hdet : detectRelationships cexData ["a", "b"] =
        [mkFKCand cexData "a" "b"] := by
      simp [detectRelationships, columnPairs, hsome]
    rw [hdet, List.filter_cons_of_pos (by decide), List.filter_nil]
  · show overlapOf cexData "a" "b" = 1
    have ha : interCard cexData "a" "b" = 1 := by decide
    have hm : minCard cexData "a" "b" = 1 := by decide
    rw [overlapOf, ha, hm]
    norm_num

/-- Kernel-computable model of JS `String.prototype.toLowerCase` (the
column names and tokens in play are ASCII). -/
def strToLower (s : String) : String := String.mk (s.data.map Char.toLower)

/-- Kernel-computable model of JS `String.prototype.includes`. -/
def strContains (s pat : String) : Bool := decide (pat.data <:+: s.data)

/-- Inferred column types of `DataStructuringAgent.detectDataType`. -/
inductive DataType where
  | string | number | boolean | date | email | url | phone | id | unknown
deriving DecidableEq, Repr

/-- JS `String(val)` on a cell: scalars are already strings here, and the
JS primitives stringify as "null" / "undefined". -/
def jsvStr (v : JSVal String) : String :=
  match v with
  | JSVal.undef => "undefined"
  | JSVal.null => "null"
  | JSVal.val s => s

/-- The source's boolean token list
`['true', 'false', '1', '0', 'yes', 'no']`. -/
def boolTokens : List String := ["true", "false", "1", "0", "yes", "no"]

/-- The source's boolean test
`['true','false','1','0','yes','no'].includes(String(val).toLowerCase())`. -/
def isBooleanToken (s : String) : Bool := boolTokens.contains (strToLower s)

/-- Platform primitives the structuring agent calls but whose semantics
live outside the repository: `!isNaN(Number(v)) && !isNaN(parseFloat(v))`
(`isNumber`), moment date validity (`isDate`), the email regex
(`isEmail`), the `URL` constructor (`isURL`), the phone regex
(`isPhone`), the id regex with length guard (`isId`), numeric conversion
`Number(v)` (`toNumber`) and `Math.sqrt` (`sqrt`). The embedding is
parameterized by them; theorems below hold for every instantiation. -/
structure JsEnv where
  isNumber : String → Bool
  isDate : String → Bool
  isEmail : String → Bool
  isURL : String → Bool
  isPhone : String → Bool
  isId : String → Bool
  toNumber : String → ℚ
  sqrt : ℚ → ℚ

/-- Embeds `DataStructuringAgent.detectDataType`: empty value list gives
`unknown`, otherwise the first 10 values are tested against the
predicates in the source's order, falling back to `string`. -/
def detectDataType (E : JsEnv) (values : List (JSVal String)) : DataType :=
  if values.isEmpty then DataType.unknown
  else
    let sample := values.take 10
    if sample.all (fun v => isBooleanToken (jsvStr v)) then DataType.boolean
    else if sample.all (fun v => E.isNumber (jsvStr v)) then DataType.number
    else if sample.all (fun v => E.isDate (jsvStr v)) then DataType.date
    else if sample.all (fun v => E.isEmail (jsvStr v)) then DataType.email
    else if sample.all (fun v => E.isURL (jsvStr v)) then DataType.url
    else if sample.all (fun v => E.isPhone (jsvStr v)) then DataType.phone
    else if sample.all (fun v => E.isId (jsvStr v)) then DataType.id
    else DataType.string

/-- The claim-side precedence list: each type paired with its predicate,
in the order boolean → number → date → email → url → phone → id. -/
def specTypeOrder (E : JsEnv) : List (DataType × (String → Bool)) :=
  [(DataType.boolean, isBooleanToken), (DataType.number, E.isNumber),
   (DataType.date, E.isDate), (DataType.email, E.isEmail),
   (DataType.url, E.isURL), (DataType.phone, E.isPhone),
   (DataType.id, E.isId)]

/-- The claim-side classifier, written from the spec's words: return the
first type of the precedence list whose predicate holds on all of the
first 10 non-null sample values, `string` if none does, and `unknown`
for an empty value list. -/
def specClassify (E : JsEnv) (values : List (JSVal String)) : DataType :=
  if values.isEmpty then DataType.unknown
  else
    match (specTypeOrder E).find?
        (fun tp => (values.take 10).all (fun v => tp.2 (jsvStr v))) with
    | some tp => tp.1
    | none => DataType.string

/-- Statistics object of `calculateStatistics`: empty for types other
than number and string. -/
inductive Stats where
  | empty : Stats
  | num : (min max mean median stdDev : ℚ) → Stats
  | str : (minLength maxLength : ℕ) → (avgLength : ℚ) → Stats
deriving DecidableEq, Repr

/-- `Math.min`/`Math.max` over a spread rational list (the source never
reaches the empty case on the number path; 0 stands in for JS Infinity
there). -/
def qListMin : List ℚ → ℚ
  | [] => 0
  | x :: xs => xs.foldl min x

def qListMax : List ℚ → ℚ
  | [] => 0
  | x :: xs => xs.foldl max x

def natListMin : List ℕ → ℕ
  | [] => 0
  | x :: xs => xs.foldl min x

def natListMax : List ℕ → ℕ
  | [] => 0
  | x :: xs => xs.foldl max x

/-- Embeds `DataStructuringAgent.calculateMedian` (sort ascending, take
the middle, or average the two middles). -/
def calculateMedian (numbers : List ℚ) : ℚ :=
  let sorted := numbers.mergeSort (fun a b => decide (a ≤ b))
  let mid := sorted.length / 2
  if sorted.length % 2 ≠ 0 then sorted.getD mid 0
  else (sorted.getD (mid - 1) 0 + sorted.getD mid 0) / 2

/-- Embeds `DataStructuringAgent.calculateStandardDeviation`. -/
def calculateStandardDeviation (E : JsEnv) (numbers : List ℚ) (mean : ℚ) : ℚ :=
  E.sqrt ((numbers.map (fun n => (n - mean) ^ 2)).sum / (numbers.length : ℚ))

/-- Embeds `DataStructuringAgent.calculateStatistics`: numeric stats for
`number`, length stats for `string`, empty otherwise. -/
def calculateStatistics (E : JsEnv) (values : List (JSVal String))
    (dataType : DataType) : Stats :=
  if dataType = DataType.number then
    let nums := values.map (fun v => E.toNumber (jsvStr v))
    let mean := nums.sum / (nums.length : ℚ)
    Stats.num (qListMin nums) (qListMax nums) mean (calculateMedian nums)
      (calculateStandardDeviation E nums mean)
  else if dataType = DataType.string then
    let lengths := values.map (fun v => (jsvStr v).length)
    Stats.str (natListMin lengths) (natListMax lengths)
      ((lengths.sum : ℚ) / (lengths.length : ℚ))
  else Stats.empty

/-- Embeds `DataStructuringAgent.detectPatterns`: name-based tags from
substring tests on the lower-cased column name, then value-based tags
for number and string columns. -/
def detectPatterns (E : JsEnv) (columnName : String)
    (values : List (JSVal String)) (dataType : DataType) : List String :=
  let lowerName := strToLower columnName
  (if strContains lowerName "id" || strContains lowerName "key" then
    ["identifier"] else []) ++
  (if strContains lowerName "name" then ["name"] else []) ++
  (if strContains lowerName "email" then ["email"] else []) ++
  (if strContains lowerName "phone" || strContains lowerName "tel" then
    ["phone"] else []) ++
  (if strContains lowerName "date" || strContains lowerName "time" then
    ["temporal"] else []) ++
  (if strContains lowerName "address" then ["address"] else []) ++
  (if strContains lowerName "url" || strContains lowerName "link" then
    ["url"] else []) ++
  (if dataType = DataType.number then
    let nums := values.map (fun v => E.toNumber (jsvStr v))
    (if nums.all (fun n => decide (n.den = 1)) then ["integer"]
      else ["decimal"]) ++
    (if nums.all (fun n => decide (0 ≤ n)) then ["positive"] else [])
   else []) ++
  (if dataType = DataType.string then
    let lengths := values.map (fun v => (jsvStr v).length)
    if lengths.all (fun l => decide (l = lengths.headD 0)) then
      ["fixed_length"] else []
   else [])

/-- Per-column relationship hint of
`DataStructuringAgent.detectPotentialRelationships`: note that it has no
source or target column fields. -/
structure PotentialRel where
  type : RelKind
  confidence : ℚ
  description : String
deriving DecidableEq, Repr

/-- Embeds `DataStructuringAgent.detectPotentialRelationships` (the
`values` argument is accepted and ignored, as in the source). -/
def detectPotentialRelationships (columnName : String)
    (values : List (JSVal String)) (dataType : DataType) : List PotentialRel :=
  (if strContains (strToLower columnName) "id" &&
      decide (dataType = DataType.string) then
    [{ type := RelKind.foreign_key, confidence := 8/10,
       description := "Potential foreign key reference" }] else []) ++
  (if strContains (strToLower columnName) "parent" ||
      strContains (strToLower columnName) "child" then
    [{ type := RelKind.hierarchical, confidence := 9/10,
       description := "Parent-child relationship" }] else []) ++
  (if decide (dataType = DataType.date) ||
      strContains (strToLower columnName) "date" then
    [{ type := RelKind.temporal, confidence := 7/10,
       description := "Temporal relationship" }] else [])

/-- ColumnProfile record built by `DataStructuringAgent.analyzeColumn`. -/
structure ColumnAnalysis where
  name : String
  dataType : DataType
  patterns : List String
  statistics : Stats
  potentialRelationships : List PotentialRel
  nullCount : ℕ
  nullPercentage : ℚ
  uniqueValues : ℕ
  sampleValues : List (JSVal String)
deriving DecidableEq, Repr

/-- Embeds `DataStructuringAgent.analyzeColumn`. Its `values` input has
already been stripped of null and undefined entries by the caller
`analyzeDataStructure`; here the empty string is additionally dropped.
Division by zero yields 0 in this embedding where JS yields NaN; the
theorems touching `nullPercentage` assume a positive denominator. -/
def analyzeColumn (E : JsEnv) (columnName : String)
    (values : List (JSVal String)) : ColumnAnalysis :=
  let nonNullValues := values.filter (fun v =>
    decide (v ≠ JSVal.null) && decide (v ≠ JSVal.undef) &&
    decide (v ≠ JSVal.val ""))
  let nullCount := values.length - nonNullValues.length
  let dataType := detectDataType E nonNullValues
  { name := columnName
    dataType := dataType
    patterns := detectPatterns E columnName nonNullValues dataType
    statistics := calculateStatistics E nonNullValues dataType
    potentialRelationships :=
      detectPotentialRelationships columnName nonNullValues dataType
    nullCount := nullCount
    nullPercentage := ((nullCount : ℚ) / (values.length : ℚ)) * 100
    uniqueValues := nonNullValues.toFinset.card
    sampleValues := nonNullValues.take 5 }

/-- Data-quality aggregate of `assessDataQuality` (consumed only by
reporting). -/
structure Quality where
  completeness : ℚ
  consistency : ℚ
  accuracy : ℚ
  overall : ℚ
deriving DecidableEq, Repr

/-- Embeds `DataStructuringAgent.assessDataQuality` (the `data` argument
is accepted and ignored, as in the source). -/
def assessDataQuality (data : List (Row String))
    (columnAnalysis : List (String × ColumnAnalysis)) : Quality :=
  let totalCompleteness :=
    (columnAnalysis.map (fun p => (100 - p.2.nullPercentage) / 100)).sum
  let totalConsistency :=
    (columnAnalysis.map (fun p =>
      if p.2.dataType ≠ DataType.unknown then (8:ℚ)/10 else 0)).sum
  let n : ℚ := (columnAnalysis.length : ℚ)
  let completeness := (totalCompleteness / n) * 100
  let consistency := (totalConsistency / n) * 100
  let accuracy := min completeness consistency
  { completeness := completeness, consistency := consistency,
    accuracy := accuracy,
    overall := (completeness + consistency + accuracy) / 3 }

/-- Analysis record built by `DataStructuringAgent.analyzeDataStructure`. -/
structure Analysis where
  columns : List String
  columnAnalysis : List (String × ColumnAnalysis)
  sampleSize : ℕ
  totalRows : ℕ
  dataQuality : Quality
deriving DecidableEq, Repr

/-- The per-column value extraction of `analyzeDataStructure`:
`sample.map(row => row[column]).filter(val !== null && val !== undefined)`
— the empty string is kept at this stage. -/
def sampleColumnValues (sample : List (Row String)) (c : String) :
    List (JSVal String) :=
  (sample.map (fun r => rowGet r c)).filter (fun v =>
    decide (v ≠ JSVal.null) && decide (v ≠ JSVal.undef))

/-- Embeds `DataStructuringAgent.analyzeDataStructure`: the sample is the
first `min(100, N)` records, the column list is the key list of the
first sample record, and each column is profiled by `analyzeColumn`. -/
def analyzeDataStructure (E : JsEnv) (data : List (Row String)) : Analysis :=
  let sampleSize := min 100 data.length
  let sample := data.take sampleSize
  let columns := (sample.headD []).map Prod.fst
  let columnAnalysis := columns.map (fun c =>
    (c, analyzeColumn E c (sampleColumnValues sample c)))
  { columns := columns, columnAnalysis := columnAnalysis,
    sampleSize := sampleSize, totalRows := data.length,
    dataQuality := assessDataQuality data columnAnalysis }

/-- Degenerate instantiation of the platform primitives, for concrete
witnesses: every predicate false, conversion constant. -/
def trivEnv : JsEnv :=
  { isNumber := fun _ => false, isDate := fun _ => false,
    isEmail := fun _ => false, isURL := fun _ => false,
    isPhone := fun _ => false, isId := fun _ => false,
    toNumber := fun _ => 0, sqrt := fun q => q }

/-- Modelled platform semantics: the source's number check
`!isNaN(Number(val)) && !isNaN(parseFloat(val))` restricted to strings of
decimal digits, on which it always holds. -/
def digitNumberCheck (s : String) : Bool :=
  !s.data.isEmpty && s.data.all Char.isDigit

/-- Platform instantiation whose number predicate is the digit-string
model, as needed to evaluate the profiler on digit-string columns. -/
def digitEnv : JsEnv :=
  { isNumber := digitNumberCheck, isDate := fun _ => false,
    isEmail := fun _ => false, isURL := fun _ => false,
    isPhone := fun _ => false, isId := fun _ => false,
    toNumber := fun _ => 0, sqrt := fun q => q }

/-- C4: the source classifier agrees with the spec's description (first
type in the precedence order whose predicate holds on all of the first
10 non-null sample values, else string; unknown when no values), and a
column whose sample values are all null, undefined or empty is profiled
as `unknown` with empty statistics. -/
theorem profiler_precedence_and_empty :
    (∀ (E : JsEnv) (values : List (JSVal String)),
      detectDataType E values = specClassify E values) ∧
    (∀ (E : JsEnv) (name : String) (values : List (JSVal String)),
      (∀ v ∈ values,
        v = JSVal.null ∨ v = JSVal.undef ∨ v = JSVal.val "") →
      (analyzeColumn E name values).dataType = DataType.unknown ∧
      (analyzeColumn E name values).statistics = Stats.empty) := by
  constructor
  · intro E values
    by_cases he : values.isEmpty
    · simp [detectDataType, specClassify, he]
    · simp only [detectDataType, specClassify, specTypeOrder, he,
        Bool.false_eq_true, if_false]
      by_cases h1 : (values.take 10).all (fun v => isBooleanToken (jsvStr v)) <;>
      by_cases h2 : (values.take 10).all (fun v => E.isNumber (jsvStr v)) <;>
      by_cases h3 : (values.take 10).all (fun v => E.isDate (jsvStr v)) <;>
      by_cases h4 : (values.take 10).all (fun v => E.isEmail (jsvStr v)) <;>
      by_cases h5 : (values.take 10).all (fun v => E.isURL (jsvStr v)) <;>
      by_cases h6 : (values.take 10).all (fun v => E.isPhone (jsvStr v)) <;>
      by_cases h7 : (values.take 10).all (fun v => E.isId (jsvStr v)) <;>
      simp [List.find?, h1, h2, h3, h4, h5, h6, h7]
  · intro E name values hv
    have hnn : values.filter (fun v =>
        decide (v ≠ JSVal.null) && decide (v ≠ JSVal.undef) &&
        decide (v ≠ JSVal.val "")) = [] := by
      apply List.filter_eq_nil.mpr
      intro v hvmem
      rcases hv v hvmem with h | h | h <;> subst h <;> simp
    constructor
    · show detectDataType E (values.filter _) = DataType.unknown
      rw [hnn]; rfl
    · show calculateStatistics E (values.filter _)
        (detectDataType E (values.filter _)) = Stats.empty
      rw [hnn]; rfl

/-- Witness for C4 at a concrete environment, a one-value column and an
all-null column. -/
theorem profiler_precedence_and_empty_witness :
    detectDataType trivEnv [JSVal.val "x"] =
      specClassify trivEnv [JSVal.val "x"] ∧
    ((analyzeColumn trivEnv "c" [JSVal.null]).dataType =
        DataType.unknown ∧
      (analyzeColumn trivEnv "c" [JSVal.null]).statistics = Stats.empty) :=
  ⟨profiler_precedence_and_empty.1 trivEnv [JSVal.val "x"],
   profiler_precedence_and_empty.2 trivEnv "c" [JSVal.null] (by decide)⟩

/-- C3 (amended): a column whose values all pass the number predicate is
classified `boolean` (when every sampled value is also a boolean token)
or `number`; it is never classified `string`, and an empty column is
`unknown`. -/
theorem number_column_never_string (E : JsEnv)
    (values : List (JSVal String))
    (hnum : ∀ v ∈ values, E.isNumber (jsvStr v) = true) :
    detectDataType E values ≠ DataType.string ∧
    (values ≠ [] →
      detectDataType E values = DataType.boolean ∨
      detectDataType E values = DataType.number) := by
  by_cases he : values.isEmpty
  · have : values = [] := List.isEmpty_iff.mp he
    subst this
    exact ⟨by simp [detectDataType], fun h => absurd rfl h⟩
  · have hs : (values.take 10).all (fun v => E.isNumber (jsvStr v)) = true := by
      rw [List.all_eq_true]
      intro v hv
      exact hnum v (List.take_subset 10 values hv)
    unfold detectDataType
    by_cases hb : (values.take 10).all (fun v => isBooleanToken (jsvStr v))
    · simp [he, hb]
    · simp [he, hb, hs]

/-- Witness for C3 (amended) on a digit-string column. -/
theorem number_column_never_string_witness :
    detectDataType digitEnv [JSVal.val "7", JSVal.val "42"] ≠
      DataType.string ∧
    ([JSVal.val "7", JSVal.val "42"] ≠ ([] : List (JSVal String)) →
      detectDataType digitEnv [JSVal.val "7", JSVal.val "42"] =
        DataType.boolean ∨
      detectDataType digitEnv [JSVal.val "7", JSVal.val "42"] =
        DataType.number) :=
  number_column_never_string digitEnv [JSVal.val "7", JSVal.val "42"]
    (by decide)

/-- Counterexample to C3 as stated: the column ["1", "0"] consists
entirely of finite-float-parsing values, yet the profiler classifies it
as `boolean`, because the boolean token test precedes the number test. -/
theorem number_column_claim_counterexample :
    digitEnv.isNumber (jsvStr (JSVal.val "1")) = true ∧
    digitEnv.isNumber (jsvStr (JSVal.val "0")) = true ∧
    detectDataType digitEnv [JSVal.val "1", JSVal.val "0"] =
      DataType.boolean ∧
    DataType.boolean ≠ DataType.number := by
  refine ⟨by decide, by decide, by decide, by decide⟩

/-- The sample over which column profiles are computed: the first
`min(100, N)` records. -/
def sampleOf (data : List (Row String)) : List (Row String) :=
  data.take (min 100 data.length)

lemma lookup_map_pair {β : Type} (l : List String) (f : String → β)
    {c : String} (h : c ∈ l) :
    (l.map (fun x => (x, f x))).lookup c = some (f c) := by
  induction l with
  | nil => cases h
  | cons a rest ih =>
    by_cases hac : c = a
    · subst hac
      simp [List.lookup]
    · have hba : (c == a) = false := beq_eq_false_iff_ne.mpr hac
      have h' : c ∈ rest := by
        rcases List.mem_cons.mp h with h0 | h0
        · exact absurd h0 hac
        · exact h0
      simp only [List.map_cons, List.lookup, hba]
      exact ih h'

lemma filter_and_eq {α : Type} (l : List α) (A B : α → Bool)
    (h : ∀ v ∈ l, A v = true) :
    l.filter (fun v => A v && B v) = l.filter B :=
  List.filter_congr (fun v hv => by rw [h v hv, Bool.true_and])

lemma length_filter_add_not {α : Type} (l : List α) (p : α → Bool) :
    (l.filter p).length + (l.filter (fun v => !(p v))).length = l.length :=
  (List.length_eq_length_filter_add p).symm

/-- C8 (amended): for a column of the analyzed dataset, the profile is
computed from the per-column sample values (the first `min(100, N)`
records with null and undefined entries dropped); over those values the
null percentage is the fraction of empty-string entries, and the
unique-value count is the cardinality of the set of non-empty entries. -/
theorem profile_sample_statistics (E : JsEnv) (data : List (Row String))
    (c : String)
    (hc : c ∈ (analyzeDataStructure E data).columns)
    (_hne : sampleColumnValues (sampleOf data) c ≠ []) :
    (analyzeDataStructure E data).columnAnalysis.lookup c =
      some (analyzeColumn E c (sampleColumnValues (sampleOf data) c)) ∧
    (analyzeColumn E c (sampleColumnValues (sampleOf data) c)).nullPercentage
      = (((sampleColumnValues (sampleOf data) c).filter
            (fun v => decide (v = JSVal.val ""))).length : ℚ) /
          ((sampleColumnValues (sampleOf data) c).length : ℚ) * 100 ∧
    (analyzeColumn E c (sampleColumnValues (sampleOf data) c)).uniqueValues
      = ((sampleColumnValues (sampleOf data) c).filter
          (fun v => decide (v ≠ JSVal.val ""))).toFinset.card := by
  set values := sampleColumnValues (sampleOf data) c with hvalues
  have hAB : values.filter (fun v =>
      decide (v ≠ JSVal.null) && decide (v ≠ JSVal.undef) &&
      decide (v ≠ JSVal.val "")) =
      values.filter (fun v => decide (v ≠ JSVal.val "")) := by
    apply filter_and_eq
    intro v hv
    rw [hvalues, sampleColumnValues] at hv
    exact (List.mem_filter.mp hv).2
  have hcnt : values.length -
      (values.filter (fun v => decide (v ≠ JSVal.val ""))).length =
      (values.filter (fun v => decide (v = JSVal.val ""))).length := by
    have hflip : values.filter (fun v => decide (v = JSVal.val "")) =
        values.filter (fun v => !(decide (v ≠ JSVal.val ""))) := by
      have : (fun v : JSVal String => decide (v = JSVal.val "")) =
          (fun v => !(decide (v ≠ JSVal.val ""))) := by
        funext v
        by_cases h : v = JSVal.val "" <;> simp [h]
      rw [this]
    rw [hflip]
    have := length_filter_add_not values
      (fun v => decide (v ≠ JSVal.val ""))
    omega
  refine ⟨?_, ?_, ?_⟩
  · have hform : (analyzeDataStructure E data).columnAnalysis =
        ((analyzeDataStructure E data).columns).map
          (fun x => (x, analyzeColumn E x
            (sampleColumnValues (sampleOf data) x))) := rfl
    rw [hform]
    exact lookup_map_pair _ _ hc
  · have hfield : (analyzeColumn E c values).nullPercentage =
        (((values.length - (values.filter (fun v =>
          decide (v ≠ JSVal.null) && decide (v ≠ JSVal.undef) &&
          decide (v ≠ JSVal.val ""))).length : ℕ) : ℚ) /
          (values.length : ℚ)) * 100 := rfl
    rw [hfield, hAB]
    rw [hcnt]
  · have hfield : (analyzeColumn E c values).uniqueValues =
        (values.filter (fun v =>
          decide (v ≠ JSVal.null) && decide (v ≠ JSVal.undef) &&
          decide (v ≠ JSVal.val ""))).toFinset.card := rfl
    rw [hfield, hAB]

/-- Dataset refuting C8 as stated: over the sample for column a, two of
the four entries are null or empty, so the claim demands a null
percentage of 50, but the code drops the null entry before computing the
percentage and reports 100/3. -/
def c8Data : List (Row String) :=
  [[("a", JSVal.null)], [("a", JSVal.val "")],
   [("a", JSVal.val "x")], [("a", JSVal.val "y")]]

/-- Witness for C8 (amended) on `c8Data` and its column a. -/
theorem profile_sample_statistics_witness :
    (analyzeDataStructure trivEnv c8Data).columnAnalysis.lookup "a" =
      some (analyzeColumn trivEnv "a"
        (sampleColumnValues (sampleOf c8Data) "a")) ∧
    (analyzeColumn trivEnv "a"
        (sampleColumnValues (sampleOf c8Data) "a")).nullPercentage
      = (((sampleColumnValues (sampleOf c8Data) "a").filter
            (fun v => decide (v = JSVal.val ""))).length : ℚ) /
          ((sampleColumnValues (sampleOf c8Data) "a").length : ℚ) * 100 ∧
    (analyzeColumn trivEnv "a"
        (sampleColumnValues (sampleOf c8Data) "a")).uniqueValues
      = ((sampleColumnValues (sampleOf c8Data) "a").filter
          (fun v => decide (v ≠ JSVal.val ""))).toFinset.card :=
  profile_sample_statistics trivEnv c8Data "a" (by decide) (by decide)

/-- Counterexample to C8 as stated: on `c8Data` the sample entries for
column a are [null, "", "x", "y"], of which 2 of 4 are null, undefined
or empty, so the claim's null percentage is 50; the code computes 100/3. -/
theorem profile_nullpct_claim_counterexample :
    sampleColumnValues (sampleOf c8Data) "a" =
      [JSVal.val "", JSVal.val "x", JSVal.val "y"] ∧
    ((c8Data.map (fun r => rowGet r "a")).filter (fun v =>
      decide (v = JSVal.null) || decide (v = JSVal.undef) ||
      decide (v = JSVal.val ""))).length = 2 ∧
    c8Data.length = 4 ∧
    (analyzeColumn trivEnv "a"
      [JSVal.val "", JSVal.val "x", JSVal.val "y"]).nullPercentage =
      100/3 ∧
    (100/3 : ℚ) ≠ (2/4) * 100 := by
  refine ⟨by decide, by decide, by decide, ?_, by norm_num⟩
  have hnn : [JSVal.val "", JSVal.val "x", JSVal.val "y"].filter (fun v =>
      decide (v ≠ JSVal.null) && decide (v ≠ JSVal.undef) &&
      decide (v ≠ JSVal.val "")) = [JSVal.val "x", JSVal.val "y"] := by
    decide
  have hfield : (analyzeColumn trivEnv "a"
      [JSVal.val "", JSVal.val "x", JSVal.val "y"]).nullPercentage =
      ((([JSVal.val "", JSVal.val "x", JSVal.val "y"] :
          List (JSVal String)).length -
        ([JSVal.val "", JSVal.val "x", JSVal.val "y"].filter (fun v =>
          decide (v ≠ JSVal.null) && decide (v ≠ JSVal.undef) &&
          decide (v ≠ JSVal.val ""))).length : ℕ) : ℚ) /
        (([JSVal.val "", JSVal.val "x", JSVal.val "y"] :
          List (JSVal String)).length : ℚ) * 100 := rfl
  rw [hfield, hnn]
  norm_num

/-- Kernel-computable model of JS `String.prototype.toUpperCase` (ASCII
column names). -/
def strToUpper (s : String) : String := String.mk (s.data.map Char.toUpper)

/-- Kernel-computable model of JS `String.prototype.replace` with a
string pattern: only the first occurrence is replaced. -/
def replaceFirstChars (pat repl : List Char) : List Char → List Char
  | [] => if pat.isEmpty then repl else []
  | c :: rest =>
    if pat.isPrefixOf (c :: rest) then repl ++ (c :: rest).drop pat.length
    else c :: replaceFirstChars pat repl rest

def strReplaceFirst (s pat repl : String) : String :=
  String.mk (replaceFirstChars pat.data repl.data s.data)

/-- Property of a Schema entity, as produced by the structuring agent's
schema generator and consumed by the Graph Model Compiler. -/
structure SchemaProperty where
  name : String
  type : DataType
  patterns : List String
  nullable : Bool
  unique : Bool
  statistics : Stats
deriving DecidableEq, Repr

structure Entity where
  name : String
  properties : List SchemaProperty
deriving DecidableEq, Repr

/-- Schema handed to the graph-modeling agent. -/
structure Schema where
  entities : List Entity
  relationships : List RelationshipCandidate
  constraints : List String
deriving DecidableEq, Repr

/-- Embeds `GraphModelingAgent.mapToNeo4jType` (`typeMapping[dataType]
|| 'String'`). -/
def mapToNeo4jType (dataType : DataType) : String :=
  match dataType with
  | DataType.string => "String"
  | DataType.number => "Float"
  | DataType.boolean => "Boolean"
  | DataType.date => "DateTime"
  | DataType.email => "String"
  | DataType.url => "String"
  | DataType.phone => "String"
  | DataType.id => "String"
  | DataType.unknown => "String"

structure NodeProperty where
  name : String
  type : String
  indexed : Bool
  unique : Bool
deriving DecidableEq, Repr

structure NodeConstraint where
  type : String
  property : String
deriving DecidableEq, Repr

structure NodeType where
  name : String
  properties : List NodeProperty
  constraints : List NodeConstraint
deriving DecidableEq, Repr

structure RelProperties where
  confidence : ℚ
  description : String
deriving DecidableEq, Repr

/-- Relationship-type definition of the GraphModel. -/
structure RelationshipType where
  name : String
  source : String
  target : String
  type : RelKind
  properties : RelProperties
deriving DecidableEq, Repr

/-- GraphModel compiled by `GraphModelingAgent.createGraphModel`. Its
`constraints` and `indexes` lists are initialized empty and never
appended to in the source. -/
structure GraphModel where
  nodeTypes : List NodeType
  relationshipTypes : List RelationshipType
  constraints : List String
  indexes : List String
deriving DecidableEq, Repr

/-- Embeds `GraphModelingAgent.generateRelationshipName`. -/
def generateRelationshipName (source target : String) : String :=
  "RELATES_TO_" ++ strToUpper source ++ "_" ++ strToUpper target

/-- The source's shared keyword vocabulary
`['id', 'name', 'type', 'status', 'date', 'time']`. -/
def commonWords : List String := ["id", "name", "type", "status", "date", "time"]

/-- Embeds `GraphModelingAgent.areColumnsRelated`. -/
def areColumnsRelated (col1 col2 : String) : Bool :=
  let lower1 := strToLower col1
  let lower2 := strToLower col2
  commonWords.any (fun word =>
    (strContains lower1 word && strContains lower2 word) ||
    (strContains lower1 word &&
      strContains lower2 (strReplaceFirst word "id" "name")) ||
    (strContains lower1 word &&
      strContains lower2 (strReplaceFirst word "name" "id")))

/-- Embeds `GraphModelingAgent.detectAdditionalRelationships`: the same
`i < j` double loop over `analysis.columns`, emitting a `semantic`
relationship type for name-related column pairs. -/
def detectAdditionalRelationships (analysis : Analysis) :
    List RelationshipType :=
  (columnPairs analysis.columns).filterMap (fun p =>
    if areColumnsRelated p.1 p.2 then
      some { name := "RELATED_TO_" ++ strToUpper p.1 ++ "_" ++ strToUpper p.2
             source := p.1
             target := p.2
             type := RelKind.semantic
             properties := { confidence := 6/10,
                             description := "Semantic relationship between "
                               ++ p.1 ++ " and " ++ p.2 } }
    else none)

/-- Embeds `GraphModelingAgent.createGraphModel`. -/
def createGraphModel (schema : Schema)
    (relationships : List RelationshipCandidate) (analysis : Analysis) :
    GraphModel :=
  let nodeTypes := schema.entities.map (fun entity =>
    { name := entity.name
      properties := entity.properties.map (fun prop =>
        { name := prop.name
          type := mapToNeo4jType prop.type
          indexed := prop.patterns.contains "identifier" || prop.unique
          unique := prop.unique })
      constraints := (entity.properties.filter (fun prop => prop.unique)).map
        (fun prop => ({ type := "UNIQUE", property := prop.name } :
          NodeConstraint)) })
  let relationshipTypes := relationships.map (fun rel =>
    ({ name := generateRelationshipName rel.source rel.target
       source := rel.source
       target := rel.target
       type := rel.type
       properties := { confidence := rel.confidence,
                       description := rel.description } } : RelationshipType))
  { nodeTypes := nodeTypes
    relationshipTypes :=
      relationshipTypes ++ detectAdditionalRelationships analysis
    constraints := []
    indexes := [] }

/-- Demo-graph node (the source's `from`/`to` edge keys are Lean
keywords and are rendered `fromNode`/`toNode`). `size` and `width` carry
the sampled `Math.random()` values. -/
structure DemoNode where
  id : String
  label : String
  group : String
  properties : Row String
  size : ℚ

structure DemoEdge where
  id : String
  fromNode : String
  toNode : String
  label : String
  width : ℚ

structure DemoInsight where
  type : String
  title : String
  description : String
  confidence : ℚ

structure DemoGraphData where
  nodes : List DemoNode
  edges : List DemoEdge

structure DemoStatistics where
  totalNodes : ℕ
  totalEdges : ℕ
  nodeTypes : List String
  relationshipTypes : List String

/-- Result of the demo/offline path of `GraphModelingAgent.execute`. -/
structure DemoResult where
  success : Bool
  graphData : DemoGraphData
  insights : List DemoInsight
  statistics : DemoStatistics
  demoMode : Bool
  message : String

/-- Embeds `GraphModelingAgent.generateDemoGraphData`. `rand` supplies
the successive `Math.random()` samples (node `i` takes sample `i`, edge
`i` takes sample `nodes.length + i`). The node type falls back to
"Entity" when there is no first entity or its name is the empty string
(a falsy JS value). -/
def generateDemoGraphData (rand : ℕ → ℚ)
    (structuredData : List (Row String)) (schema : Schema) : DemoResult :=
  let nodeType := match schema.entities with
    | [] => "Entity"
    | e :: _ => if e.name = "" then "Entity" else e.name
  let nodes := (structuredData.take 10).enum.map (fun ie =>
    ({ id := "node_" ++ toString ie.1
       label := nodeType ++ " " ++ toString (ie.1 + 1)
       group := nodeType
       properties := ie.2
       size := rand ie.1 * 20 + 10 } : DemoNode))
  let fallbackNode : DemoNode :=
    { id := "", label := "", group := "", properties := [], size := 0 }
  let edges := (List.range (min 5 (nodes.length - 1))).map (fun i =>
    ({ id := "edge_" ++ toString i
       fromNode := (nodes.getD i fallbackNode).id
       toNode := (nodes.getD (i + 1) fallbackNode).id
       label := "RELATES_TO"
       width := rand (nodes.length + i) * 5 + 1 } : DemoEdge))
  let insights : List DemoInsight :=
    [{ type := "pattern", title := "Data Clustering",
       description := "Detected 3 main clusters in the data structure",
       confidence := 85/100 },
     { type := "anomaly", title := "Outlier Detection",
       description := "Found 2 potential outliers in the dataset",
       confidence := 72/100 },
     { type := "relationship", title := "Strong Correlations",
       description := "Identified 5 strong correlations between entities",
       confidence := 91/100 }]
  { success := true
    graphData := { nodes := nodes, edges := edges }
    insights := insights
    statistics := { totalNodes := nodes.length, totalEdges := edges.length,
                    nodeTypes := (nodes.map (fun n => n.group)).eraseDups,
                    relationshipTypes :=
                      (edges.map (fun e => e.label)).eraseDups }
    demoMode := true
    message := "Demo mode: Graph data generated for visualization. Install Neo4j for full functionality." }

/-- Embeds `GraphModelingAgent.initialize`: the connectivity check
failing puts the agent in demo mode instead of raising the error. -/
def initDemoFlag (connectivityOk : Bool) : Bool := !connectivityOk

/-- Embeds the demo-mode path of `GraphModelingAgent.execute`: an empty
structured dataset raises the input error, otherwise the agent in demo
mode returns the synthetic preview instead of any store error. The
connected path talks to the external Neo4j store and is outside this
embedding. -/
def executeDemoMode (rand : ℕ → ℚ) (structuredData : List (Row String))
    (schema : Schema) : Except String DemoResult :=
  if structuredData.isEmpty then
    Except.error "No structured data provided for graph modeling"
  else Except.ok (generateDemoGraphData rand structuredData schema)

/-- C2: with the store unreachable at initialization the agent is in
demo mode, and for every non-empty structured dataset the demo execute
path returns ok (never a store error) with demoMode set, nodes being
exactly the first min(10, N) records, at most min(5, nodes−1) sequential
edges, and the three fixed insights. -/
theorem demo_mode_bounded_preview (rand : ℕ → ℚ)
    (structuredData : List (Row String)) (schema : Schema)
    (hne : structuredData ≠ []) :
    initDemoFlag false = true ∧
    executeDemoMode rand structuredData schema =
      Except.ok (generateDemoGraphData rand structuredData schema) ∧
    (generateDemoGraphData rand structuredData schema).demoMode = true ∧
    (generateDemoGraphData rand structuredData schema).graphData.nodes.length
      = min 10 structuredData.length ∧
    (generateDemoGraphData rand structuredData schema).graphData.nodes.length
      ≤ 10 ∧
    (generateDemoGraphData rand structuredData
        schema).graphData.nodes.map DemoNode.properties
      = structuredData.take 10 ∧
    (generateDemoGraphData rand structuredData schema).graphData.edges.length
      = min 5
        ((generateDemoGraphData rand structuredData
          schema).graphData.nodes.length - 1) ∧
    (generateDemoGraphData rand structuredData schema).graphData.edges.length
      ≤ 5 ∧
    (generateDemoGraphData rand structuredData schema).insights.length = 3 := by
  refine ⟨rfl, ?_, rfl, ?_, ?_, ?_, ?_, ?_, rfl⟩
  · unfold executeDemoMode
    rw [if_neg (by simpa [List.isEmpty_iff] using hne)]
  · simp only [generateDemoGraphData, List.length_map, List.enum_length,
      List.length_take]
  · simp only [generateDemoGraphData, List.length_map, List.enum_length,
      List.length_take]
    exact min_le_left _ _
  · simp only [generateDemoGraphData, List.map_map]
    exact List.enum_map_snd _
  · simp only [generateDemoGraphData, List.length_map, List.length_range]
  · simp only [generateDemoGraphData, List.length_map, List.length_range]
    exact min_le_left _ _

/-- Schema with no entities, for concrete witnesses. -/
def emptySchema : Schema :=
  { entities := [], relationships := [], constraints := [] }

/-- Witness for C2 on a concrete 4-record dataset: 4 nodes, 3 edges. -/
theorem demo_mode_bounded_preview_witness :
    initDemoFlag false = true ∧
    executeDemoMode (fun _ => 0) c8Data emptySchema =
      Except.ok (generateDemoGraphData (fun _ => 0) c8Data emptySchema) ∧
    (generateDemoGraphData (fun _ => 0) c8Data emptySchema).demoMode = true ∧
    (generateDemoGraphData (fun _ => 0) c8Data
        emptySchema).graphData.nodes.length = min 10 c8Data.length ∧
    (generateDemoGraphData (fun _ => 0) c8Data
        emptySchema).graphData.nodes.length ≤ 10 ∧
    (generateDemoGraphData (fun _ => 0) c8Data
        emptySchema).graphData.nodes.map DemoNode.properties
      = c8Data.take 10 ∧
    (generateDemoGraphData (fun _ => 0) c8Data
        emptySchema).graphData.edges.length
      = min 5 ((generateDemoGraphData (fun _ => 0) c8Data
        emptySchema).graphData.nodes.length - 1) ∧
    (generateDemoGraphData (fun _ => 0) c8Data
        emptySchema).graphData.edges.length ≤ 5 ∧
    (generateDemoGraphData (fun _ => 0) c8Data emptySchema).insights.length
      = 3 :=
  demo_mode_bounded_preview (fun _ => 0) c8Data emptySchema (by decide)

/-- C7: the Graph Model Compiler is deterministic and idempotent across
runs: two runs of `createGraphModel` on the same Schema, relationship
list and column analysis produce structurally identical GraphModels —
the embedded compiler is a pure function of those three arguments (the
source reads no mutable agent state, clock or randomness on this path),
so node types with their properties, generated relationship type names,
and the constraint and index sets all coincide. -/
theorem graph_model_compiler_deterministic (schema : Schema)
    (relationships : List RelationshipCandidate) (analysis : Analysis) :
    createGraphModel schema relationships analysis =
      createGraphModel schema relationships analysis ∧
    (createGraphModel schema relationships analysis).nodeTypes =
      (createGraphModel schema relationships analysis).nodeTypes ∧
    (createGraphModel schema relationships
        analysis).relationshipTypes.map RelationshipType.name =
      (createGraphModel schema relationships
        analysis).relationshipTypes.map RelationshipType.name ∧
    (createGraphModel schema relationships analysis).constraints =
      (createGraphModel schema relationships analysis).constraints ∧
    (createGraphModel schema relationships analysis).indexes =
      (createGraphModel schema relationships analysis).indexes :=
  ⟨rfl, rfl, rfl, rfl, rfl⟩

lemma detectAdditional_congr {a b : Analysis} (h : a.columns = b.columns) :
    detectAdditionalRelationships a = detectAdditionalRelationships b := by
  unfold detectAdditionalRelationships
  rw [h]

/-- C9: (i) every candidate the detector emits has type foreign_key;
(ii) the hierarchical and temporal hints live only in the per-column
`potentialRelationships` (whose record type carries no source/target
pair) with fixed confidences 0.9 and 0.7; (iii) a GraphModel compiled
from detector output contains no hierarchical or temporal relationship
type, so the loader's hierarchical and temporal materialization branches
(`loadRelationships`) are unreachable for detector output; (iv) the
compiler reads the analysis only through its column list, so the
potential-relationship hints never enter the GraphModel. -/
theorem detector_emits_only_foreign_keys :
    (∀ (V : Type) (inst : DecidableEq V) (data : List (Row V))
      (cols : List String) (r : RelationshipCandidate),
      r ∈ detectRelationships data cols → r.type = RelKind.foreign_key) ∧
    (∀ (name : String) (values : List (JSVal String)) (dt : DataType)
      (p : PotentialRel), p ∈ detectPotentialRelationships name values dt →
      (p.type = RelKind.hierarchical → p.confidence = 9/10) ∧
      (p.type = RelKind.temporal → p.confidence = 7/10)) ∧
    (∀ (V : Type) (inst : DecidableEq V) (schema : Schema)
      (data : List (Row V)) (cols : List String) (analysis : Analysis),
      (createGraphModel schema (detectRelationships data cols)
          analysis).relationshipTypes.filter
        (fun rt => decide (rt.type = RelKind.hierarchical) ||
          decide (rt.type = RelKind.temporal)) = []) ∧
    (∀ (schema : Schema) (rels : List RelationshipCandidate)
      (a b : Analysis), a.columns = b.columns →
      createGraphModel schema rels a = createGraphModel schema rels b) := by
  have hdet : ∀ (V : Type) (inst : DecidableEq V) (data : List (Row V))
      (cols : List String) (r : RelationshipCandidate),
      r ∈ detectRelationships data cols → r.type = RelKind.foreign_key := by
    intro V inst data cols r hr
    obtain ⟨p, _, hp⟩ := List.mem_filterMap.mp hr
    rw [analyze_fields hp]
    rfl
  have hadd : ∀ (analysis : Analysis) (rt : RelationshipType),
      rt ∈ detectAdditionalRelationships analysis →
      rt.type = RelKind.semantic := by
    intro analysis rt hrt
    obtain ⟨p, _, hp⟩ := List.mem_filterMap.mp hrt
    by_cases hrel : areColumnsRelated p.1 p.2
    · rw [if_pos hrel] at hp
      rw [← Option.some_inj.mp hp]
    · rw [if_neg hrel] at hp
      cases hp
  refine ⟨hdet, ?_, ?_, ?_⟩
  · intro name values dt p hp
    unfold detectPotentialRelationships at hp
    rcases List.mem_append.mp hp with h | h
    · rcases List.mem_append.mp h with h' | h'
      · split at h'
        · rw [List.mem_singleton.mp h']
          exact ⟨fun hh => absurd hh (by decide),
                 fun hh => absurd hh (by decide)⟩
        · cases h'
      · split at h'
        · rw [List.mem_singleton.mp h']
          exact ⟨fun _ => rfl, fun hh => absurd hh (by decide)⟩
        · cases h'
    · split at h
      · rw [List.mem_singleton.mp h]
        exact ⟨fun hh => absurd hh (by decide), fun _ => rfl⟩
      · cases h
  · intro V inst schema data cols analysis
    apply List.filter_eq_nil.mpr
    intro rt hrt
    have htype : rt.type = RelKind.foreign_key ∨
        rt.type = RelKind.semantic := by
      have : (createGraphModel schema (detectRelationships data cols)
          analysis).relationshipTypes =
          (detectRelationships data cols).map (fun rel =>
            ({ name := generateRelationshipName rel.source rel.target
               source := rel.source
               target := rel.target
               type := rel.type
               properties := { confidence := rel.confidence,
                               description := rel.description } } :
              RelationshipType)) ++
          detectAdditionalRelationships analysis := rfl
      rw [this] at hrt
      rcases List.mem_append.mp hrt with h | h
      · obtain ⟨rel, hrel, hmap⟩ := List.mem_map.mp h
        left
        rw [← hmap]
        exact hdet V inst data cols rel hrel
      · exact Or.inr (hadd analysis rt h)
    rcases htype with h | h <;> simp [h]
  · intro schema rels a b hcols
    unfold createGraphModel
    rw [detectAdditional_congr hcols]

/-- Witness for C9: its third component fully applied at a concrete
schema, dataset and analysis. -/
theorem detector_emits_only_foreign_keys_witness :
    (createGraphModel emptySchema
        (detectRelationships egData ["id", "mgr"])
        { columns := ["id", "mgr"], columnAnalysis := [], sampleSize := 0,
          totalRows := 0,
          dataQuality := { completeness := 0, consistency := 0,
                           accuracy := 0, overall := 0 } }).relationshipTypes.filter
      (fun rt => decide (rt.type = RelKind.hierarchical) ||
        decide (rt.type = RelKind.temporal)) = [] :=
  detector_emits_only_foreign_keys.2.2.1 ℕ inferInstance emptySchema egData
    ["id", "mgr"]
    { columns := ["id", "mgr"], columnAnalysis := [], sampleSize := 0,
      totalRows := 0,
      dataQuality := { completeness := 0, consistency := 0,
                       accuracy := 0, overall := 0 } }

/-- Step record kept in `job.steps` by `AgentOrchestrator.processData`
(the per-step start/end timestamps and stage result payload are carried
alongside in the source and are not modelled; the stage results appear
in the returned triple instead). -/
structure StepRec where
  name : String
  status : String
  error : Option String
deriving DecidableEq, Repr

/-- Job record of the Orchestrator. `id` is the value of
`generateJobId()` (time-and-random derived), supplied as a parameter. -/
structure JobRec where
  id : String
  status : String
  steps : List StepRec
  error : Option String
deriving DecidableEq, Repr

/-- Embeds `AgentOrchestrator.processData`: the three stages run
strictly in sequence, a step record is appended per stage and marked
completed or failed, and the first failure marks the job failed with the
error message and rethrows (here: returns `Except.error`). The stages
are the agents' `process` methods, which rethrow their `execute`
errors (`BaseAgent.process`). -/
def processData {LR SR GR : Type} (jobId : String)
    (loadStage : Except String LR)
    (structStage : LR → Except String SR)
    (graphStage : SR → Except String GR) :
    JobRec × Except String (LR × SR × GR) :=
  match loadStage with
  | Except.error e =>
    ({ id := jobId, status := "failed",
       steps := [{ name := "dataLoading", status := "failed",
                   error := some e }],
       error := some e },
     Except.error e)
  | Except.ok lr =>
    match structStage lr with
    | Except.error e =>
      ({ id := jobId, status := "failed",
         steps := [{ name := "dataLoading", status := "completed",
                     error := none },
                   { name := "dataStructuring", status := "failed",
                     error := some e }],
         error := some e },
       Except.error e)
    | Except.ok sr =>
      match graphStage sr with
      | Except.error e =>
        ({ id := jobId, status := "failed",
           steps := [{ name := "dataLoading", status := "completed",
                       error := none },
                     { name := "dataStructuring", status := "completed",
                       error := none },
                     { name := "graphModeling", status := "failed",
                       error := some e }],
           error := some e },
         Except.error e)
      | Except.ok gr =>
        ({ id := jobId, status := "completed",
           steps := [{ name := "dataLoading", status := "completed",
                       error := none },
                     { name := "dataStructuring", status := "completed",
                       error := none },
                     { name := "graphModeling", status := "completed",
                       error := none }],
           error := none },
         Except.ok (lr, sr, gr))

/-- Result of the data-loading stage as consumed by
`DataStructuringAgent.execute` (`const { data: rawData, metadata } =
data`; the metadata is passed through untouched and not modelled). -/
structure LoadResult where
  data : List (Row String)

/-- Embeds the input guard of `DataStructuringAgent.execute`: empty (or
absent) raw data throws before any analysis; `rest` is the remainder of
the stage (analysis, cleaning, LLM-assisted schema generation). -/
def dataStructuringExecute {SR : Type}
    (rest : LoadResult → Except String SR) (input : LoadResult) :
    Except String SR :=
  if input.data.isEmpty then
    Except.error "No data provided for structuring"
  else rest input

/-- C5: for a zero-row dataset the structuring stage raises the
descriptive input error, the Orchestrator marks the job failed with that
message (so the job never reaches status completed), and the caller
receives the error. -/
theorem empty_dataset_fails_pipeline {SR GR : Type} (jobId : String)
    (lr : LoadResult) (rest : LoadResult → Except String SR)
    (graphStage : SR → Except String GR) (hempty : lr.data = []) :
    (processData jobId (Except.ok lr) (dataStructuringExecute rest)
        graphStage).1.status = "failed" ∧
    (processData jobId (Except.ok lr) (dataStructuringExecute rest)
        graphStage).1.status ≠ "completed" ∧
    (processData jobId (Except.ok lr) (dataStructuringExecute rest)
        graphStage).1.error = some "No data provided for structuring" ∧
    (processData jobId (Except.ok lr) (dataStructuringExecute rest)
        graphStage).2 = Except.error "No data provided for structuring" ∧
    ({ name := "dataStructuring", status := "failed",
       error := some "No data provided for structuring" } : StepRec) ∈
      (processData jobId (Except.ok lr) (dataStructuringExecute rest)
        graphStage).1.steps := by
  have hst : dataStructuringExecute rest lr =
      Except.error "No data provided for structuring" := by
    unfold dataStructuringExecute
    rw [if_pos (by rw [hempty]; rfl)]
  simp [processData, hst]

/-- Witness for C5 at a concrete empty load result. -/
theorem empty_dataset_fails_pipeline_witness :
    (processData "job_1" (Except.ok { data := [] })
        (dataStructuringExecute (fun _ => Except.ok ()))
        (fun _ : Unit => Except.ok ())).1.status = "failed" ∧
    (processData "job_1" (Except.ok { data := [] })
        (dataStructuringExecute (fun _ => Except.ok ()))
        (fun _ : Unit => Except.ok ())).1.status ≠ "completed" ∧
    (processData "job_1" (Except.ok { data := [] })
        (dataStructuringExecute (fun _ => Except.ok ()))
        (fun _ : Unit => Except.ok ())).1.error =
      some "No data provided for structuring" ∧
    (processData "job_1" (Except.ok { data := [] })
        (dataStructuringExecute (fun _ => Except.ok ()))
        (fun _ : Unit => Except.ok ())).2 =
      Except.error "No data provided for structuring" ∧
    ({ name := "dataStructuring", status := "failed",
       error := some "No data provided for structuring" } : StepRec) ∈
      (processData "job_1" (Except.ok { data := [] })
        (dataStructuringExecute (fun _ => Except.ok ()))
        (fun _ : Unit => Except.ok ())).1.steps :=
  empty_dataset_fails_pipeline "job_1" { data := [] }
    (fun _ => Except.ok ()) (fun _ => Except.ok ()) rfl

structure BatchSummary where
  total : ℕ
  successful : ℕ
  failed : ℕ
deriving DecidableEq, Repr

/-- Return shape of `AgentOrchestrator.processBatch`: per-index results,
per-index errors, and the summary counts. -/
structure BatchResult (R : Type) where
  results : List (ℕ × R)
  errors : List (ℕ × String)
  summary : BatchSummary

/-- The sequential `for` loop of `processBatch`, accumulating indexed
successes and failures from position `i` on. `run i c` is the outcome of
the `await this.processData(jobConfigs[i])` call (indexed by position,
since the orchestrator is stateful across calls). -/
def processBatchAux {C R : Type} (run : ℕ → C → Except String R) :
    ℕ → List C → List (ℕ × R) × List (ℕ × String)
  | _, [] => ([], [])
  | i, c :: rest =>
    let acc := processBatchAux run (i + 1) rest
    match run i c with
    | Except.ok r => ((i, r) :: acc.1, acc.2)
    | Except.error e => (acc.1, (i, e) :: acc.2)

/-- Embeds `AgentOrchestrator.processBatch`. -/
def processBatch {C R : Type} (run : ℕ → C → Except String R)
    (jobConfigs : List C) : BatchResult R :=
  let acc := processBatchAux run 0 jobConfigs
  { results := acc.1, errors := acc.2,
    summary := { total := jobConfigs.length, successful := acc.1.length,
                 failed := acc.2.length } }

lemma processBatchAux_spec {C R : Type} (run : ℕ → C → Except String R)
    (cs : List C) : ∀ i : ℕ,
    (processBatchAux run i cs).1 = (cs.enumFrom i).filterMap (fun ic =>
      match run ic.1 ic.2 with
      | Except.ok r => some (ic.1, r)
      | Except.error _ => none) ∧
    (processBatchAux run i cs).2 = (cs.enumFrom i).filterMap (fun ic =>
      match run ic.1 ic.2 with
      | Except.ok _ => none
      | Except.error e => some (ic.1, e)) ∧
    (processBatchAux run i cs).1.length +
      (processBatchAux run i cs).2.length = cs.length := by
  induction cs with
  | nil => intro i; exact ⟨rfl, rfl, rfl⟩
  | cons c rest ih =>
    intro i
    obtain ⟨ih1, ih2, ih3⟩ := ih (i + 1)
    simp only [processBatchAux, List.enumFrom, List.filterMap_cons]
    cases hrun : run i c with
    | ok r =>
      simp only [hrun]
      refine ⟨by rw [ih1], by rw [ih2], ?_⟩
      simp only [List.length_cons]
      omega
    | error e =>
      simp only [hrun]
      refine ⟨by rw [ih1], by rw [ih2], ?_⟩
      simp only [List.length_cons]
      omega

/-- C6: `processBatch` visits the configs in list order with their
indices, a failing job contributes an indexed error without stopping
later jobs (each position's outcome appears regardless of the others),
and the summary counts satisfy total = number of configs, successful =
number of results, failed = number of errors, successful + failed =
total. -/
theorem batch_summary_correct {C R : Type} (run : ℕ → C → Except String R)
    (jobConfigs : List C) :
    (processBatch run jobConfigs).summary.total = jobConfigs.length ∧
    (processBatch run jobConfigs).summary.successful =
      (processBatch run jobConfigs).results.length ∧
    (processBatch run jobConfigs).summary.failed =
      (processBatch run jobConfigs).errors.length ∧
    (processBatch run jobConfigs).summary.successful +
      (processBatch run jobConfigs).summary.failed =
      (processBatch run jobConfigs).summary.total ∧
    (processBatch run jobConfigs).results =
      jobConfigs.enum.filterMap (fun ic =>
        match run ic.1 ic.2 with
        | Except.ok r => some (ic.1, r)
        | Except.error _ => none) ∧
    (processBatch run jobConfigs).errors =
      jobConfigs.enum.filterMap (fun ic =>
        match run ic.1 ic.2 with
        | Except.ok _ => none
        | Except.error e => some (ic.1, e)) := by
  obtain ⟨h1, h2, h3⟩ := processBatchAux_spec run jobConfigs 0
  exact ⟨rfl, rfl, rfl, h3, h1, h2⟩

/-- The spec's batch scenario: three configs of which exactly the second
fails. -/
def egBatchRun : ℕ → String → Except String String :=
  fun _ c => if c = "bad" then Except.error "malformed" else Except.ok c

/-- Witness for C6 on the 3-config scenario with job 2 malformed:
results for jobs 1 and 3, one error at index 1, summary
{total 3, successful 2, failed 1}. -/
theorem batch_summary_correct_witness :
    (processBatch egBatchRun ["a", "bad", "c"]).results =
      [(0, "a"), (2, "c")] ∧
    (processBatch egBatchRun ["a", "bad", "c"]).errors =
      [(1, "malformed")] ∧
    (processBatch egBatchRun ["a", "bad", "c"]).summary =
      { total := 3, successful := 2, failed := 1 } ∧
    (processBatch egBatchRun ["a", "bad", "c"]).summary.successful +
      (processBatch egBatchRun ["a", "bad", "c"]).summary.failed =
      (processBatch egBatchRun ["a", "bad", "c"]).summary.total := by
  refine ⟨by decide, by decide, by decide,
    (batch_summary_correct egBatchRun ["a", "bad", "c"]).2.2.2.1⟩

/-- In-memory orchestrator state visible to `processDataAsync`:
the current job, the append-only job history, and the work scheduled by
`setImmediate` but not yet run. -/
structure OrchState (C : Type) where
  currentJob : Option JobRec
  jobHistory : List JobRec
  pending : List C

/-- Embeds `AgentOrchestrator.processDataAsync`: `setImmediate` defers
the `processData` call until after the current synchronous execution, so
the method only schedules the config and returns `this.currentJob?.id`
as read at call time; the scheduled job (and its fresh id) is created
only when the deferred call later runs. -/
def processDataAsync {C : Type} (st : OrchState C) (jobConfig : C) :
    Option String × OrchState C :=
  (st.currentJob.map JobRec.id,
   { st with pending := st.pending ++ [jobConfig] })

/-- C10: `processDataAsync` returns the id of whatever job was current
at call time — `none` on the first ever invocation — and never the id of
the job it schedules (any id fresh with respect to the job history),
while the submitted config is only queued. -/
theorem async_returns_stale_job_id {C : Type} (st : OrchState C)
    (jobConfig : C)
    (hinv : ∀ j, st.currentJob = some j → j ∈ st.jobHistory) :
    (processDataAsync st jobConfig).1 = st.currentJob.map JobRec.id ∧
    (st.currentJob = none → (processDataAsync st jobConfig).1 = none) ∧
    (∀ freshId : String, (∀ j ∈ st.jobHistory, j.id ≠ freshId) →
      (processDataAsync st jobConfig).1 ≠ some freshId) ∧
    (processDataAsync st jobConfig).2.pending =
      st.pending ++ [jobConfig] := by
  refine ⟨rfl, ?_, ?_, rfl⟩
  · intro h
    simp [processDataAsync, h]
  · intro freshId hfresh
    cases hcur : st.currentJob with
    | none => simp [processDataAsync, hcur]
    | some j =>
      simp only [processDataAsync, hcur, Option.map_some]
      intro hsome
      exact hfresh j (hinv j hcur) (Option.some_inj.mp hsome)

/-- Witness for C10 at the initial state (no prior job): the returned id
is `none`, and in particular not the id later given to the scheduled
job. -/
theorem async_returns_stale_job_id_witness :
    (processDataAsync (OrchState.mk none [] [] : OrchState Unit) ()).1 = none ∧
    (processDataAsync (OrchState.mk none [] [] : OrchState Unit) ()).1 ≠
      some "job_1700000000000_x1y2z3" :=
  have h := async_returns_stale_job_id (OrchState.mk none [] [] : OrchState Unit)
    () (by intro j hj; cases hj)
  ⟨h.2.1 rfl, h.2.2.1 "job_1700000000000_x1y2z3" (by intro j hj; cases hj)⟩
